import Mathlib

/-!
Shallow embedding of the deterministic core of the AI Smart Productivity
Platform (file `ai.py`, with data model from `schemas/task.py`).

Time is modelled in seconds as rationals.  `datetime.now()` and
`datetime.fromisoformat` are supplied by an `Env` record: `now` is the
current clock reading and `parse` maps a deadline string to the instant it
denotes, or `none` when parsing fails (`fromisoformat` raising).  A
well-formed parser rejects the empty string, as the real ISO-8601 parser
does; this is the `WFEnv` hypothesis.  `strftime "%b %d"` is the abstract
`fmtMonthDay` field.  Python `int()` (truncation toward zero), `//`
(floor division), `math.ceil`, `round(x, 1)` and `"%.1f"` formatting are
embedded by `pyInt`, `Int.fdiv`, `Int.ceil`, `round1` and `fmt1`.
-/

namespace SmartProductivity

/-- Python `int()` applied to a numeric value: truncation toward zero. -/
def pyInt (q : ℚ) : ℤ := if q < 0 then ⌈q⌉ else ⌊q⌋

/-- Python `f"{m:02d}"` for a nonnegative value: pad to two digits with a zero. -/
def pad2 (n : ℕ) : String := if n < 10 then "0" ++ Nat.repr n else Nat.repr n

/-- Python `x % 1` for a float: the fractional part, always in `[0, 1)`. -/
def fracPart (q : ℚ) : ℚ := q - ⌊q⌋

/-- `int(current_hour)` of a clock value in fractional hours. -/
def clockHourOf (q : ℚ) : ℤ := pyInt q

/-- `int((current_hour % 1) * 60)`: whole minutes of the fractional part. -/
def clockMinuteOf (q : ℚ) : ℕ := (pyInt (fracPart q * 60)).toNat

/-- The f-string `f"{start_h}:{start_m:02d}"` used for time-block endpoints. -/
def fmtClock (q : ℚ) : String := (clockHourOf q).repr ++ ":" ++ pad2 (clockMinuteOf q)

/-- Round a rational to the nearest integer, ties to the even integer
(the rounding used by Python `round` and `format`). -/
def rndHalfEven (q : ℚ) : ℤ :=
  if q - ⌊q⌋ < 1/2 then ⌊q⌋
  else if 1/2 < q - ⌊q⌋ then ⌊q⌋ + 1
  else if 2 ∣ ⌊q⌋ then ⌊q⌋ else ⌊q⌋ + 1

/-- Python `round(x, 1)`. -/
def round1 (q : ℚ) : ℚ := (rndHalfEven (q * 10) : ℚ) / 10

/-- Python `f"{x:.1f}"` for a nonnegative value. -/
def fmt1 (q : ℚ) : String :=
  (Int.ediv (rndHalfEven (q * 10)) 10).repr ++ "." ++ (Int.emod (rndHalfEven (q * 10)) 10).repr

/-- Python `text.lower()`, as a list of characters. -/
def lowerChars (s : String) : List Char := s.data.map Char.toLower

/-- Does the second list occur as a leading segment of the first? -/
def beginsWith : List Char → List Char → Bool
  | _, [] => true
  | [], _ :: _ => false
  | c :: s, d :: p => c == d && beginsWith s p

/-- Python `p in s` on strings: `p` occurs as a contiguous substring of `s`. -/
def hasSubstr : List Char → List Char → Bool
  | [], p => p.isEmpty
  | c :: s, p => beginsWith (c :: s) p || hasSubstr s p

/-- Drop leading whitespace characters. -/
def dropWhitespace : List Char → List Char
  | [] => []
  | c :: cs => if c.isWhitespace then dropWhitespace cs else c :: cs

/-- Python `s.strip()`: remove whitespace from both ends. -/
def pyStrip (s : List Char) : List Char :=
  (dropWhitespace (dropWhitespace s).reverse).reverse

/-- Python truthiness of `os.getenv(...)`: `None` and `""` are falsy. -/
def pyTruthy : Option String → Bool
  | none => false
  | some s => !s.isEmpty

/-- The `Task` model of `schemas/task.py` (fields the core reads). -/
structure Task where
  id : String
  title : String
  description : Option String := none
  deadline : Option String := none
  priority : String := "medium"
  status : String := "pending"
  category : Option String := none
  estimatedHours : Option ℚ := none
deriving DecidableEq

/-- The ambient clock and datetime library: `now` is `datetime.now()` in
seconds, `parse` is `datetime.fromisoformat` (`none` = raises), and
`fmtMonthDay` is `d.strftime("%b %d")`. -/
structure Env where
  now : ℚ
  parse : String → Option ℚ
  fmtMonthDay : ℚ → String

/-- A well-formed datetime library: parsing the empty string fails, as
`datetime.fromisoformat("")` raises. -/
def WFEnv (env : Env) : Prop := env.parse "" = none

/-- Python `task.estimatedHours or 2`: `None` and `0.0` are falsy. -/
def dur (t : Task) : ℚ :=
  match t.estimatedHours with
  | none => 2
  | some h => if h = 0 then 2 else h

/-- `PRIORITY_SCORE.get(priority, 0)` for the dict on line 26 of `ai.py`. -/
def PRIORITY_SCORE (p : String) : ℚ :=
  if p = "critical" then 100
  else if p = "high" then 75
  else if p = "medium" then 50
  else if p = "low" then 25
  else 0

/-- The `time_score` chain of `urgency_score` (lines 33-42 of `ai.py`). -/
def timeBonus (diffHours : ℚ) : ℚ :=
  if diffHours < 0 then 200
  else if diffHours < 24 then 150
  else if diffHours < 72 then 100
  else if diffHours < 168 then 50
  else 10

/-- `urgency_score` (lines 28-45 of `ai.py`).  `not task.deadline` is true
for both `None` and `""`; any parse failure falls back to the base score. -/
def urgency_score (env : Env) (t : Task) : ℚ :=
  match t.deadline with
  | none => PRIORITY_SCORE t.priority
  | some s =>
    if s = "" then PRIORITY_SCORE t.priority
    else
      match env.parse s with
      | none => PRIORITY_SCORE t.priority
      | some d => PRIORITY_SCORE t.priority + timeBonus ((d - env.now) / 3600)

/-- `format_deadline` (lines 48-62 of `ai.py`).  `hours` is Python
`int(diff.total_seconds() / 3600)` (truncation toward zero) and the
overdue count is `abs(hours // 24)` (floor division, then `abs`). -/
def format_deadline (env : Env) (t : Task) : String :=
  match t.deadline with
  | none => "no deadline"
  | some s =>
    if s = "" then "no deadline"
    else
      match env.parse s with
      | none => s
      | some d =>
        let hours : ℤ := pyInt ((d - env.now) / 3600)
        if hours < 0 then "overdue by " ++ Nat.repr ((hours.fdiv 24).natAbs) ++ "d"
        else if hours < 24 then hours.repr ++ "h left"
        else if hours.fdiv 24 ≤ 7 then (hours.fdiv 24).repr ++ "d left"
        else env.fmtMonthDay d

/-- Active tasks: `[t for t in tasks if t.status != "completed"]`. -/
def activeTasks (ts : List Task) : List Task :=
  ts.filter (fun t => t.status != "completed")

/-- The sort order of `sorted(active, key=urgency_score, reverse=True)`:
`a` may precede `b` when the key of `a` is at least the key of `b`. -/
def urgGE (env : Env) (a b : Task) : Prop :=
  urgency_score env b ≤ urgency_score env a

instance (env : Env) : DecidableRel (urgGE env) := fun a b =>
  inferInstanceAs (Decidable (urgency_score env b ≤ urgency_score env a))

instance (env : Env) : IsTotal Task (urgGE env) :=
  ⟨fun a b => le_total (urgency_score env b) (urgency_score env a)⟩

instance (env : Env) : IsTrans Task (urgGE env) :=
  ⟨fun _ _ _ hab hbc => le_trans hbc hab⟩

/-- `sorted(active, key=urgency_score, reverse=True)`.  Python `sorted` is
stable; a stable descending sort by a key is uniquely determined, so it is
embedded as the stable `List.insertionSort` under `urgGE`. -/
def rankedTasks (env : Env) (ts : List Task) : List Task :=
  (activeTasks ts).insertionSort (urgGE env)

structure AIRecommendation where
  taskId : String
  taskTitle : String
  rank : ℕ
  reason : String
  suggestedTime : String
deriving DecidableEq

structure AIPriorityResponse where
  recommendations : List AIRecommendation
  insight : String
deriving DecidableEq

/-- The `reasons[i].format(p=t.priority, d=format_deadline(t))` texts of
lines 71-75 of `ai.py`; only template 0 has placeholders. -/
def reasonFor (env : Env) (i : ℕ) (t : Task) : String :=
  match i with
  | 0 => "🔥 Highest urgency: " ++ t.priority ++ " priority with deadline "
      ++ format_deadline env t ++ ". Clear your schedule and start now."
  | 1 => "⚡ Second priority: Significant impact on project timeline. Schedule immediately after task #1."
  | 2 => "📋 Third priority: Important but manageable. Block time this afternoon."
  | _ => ""

/-- The `suggestions` table on line 76 of `ai.py`. -/
def suggestedTimes : List String :=
  ["9:00 AM – 11:00 AM", "11:30 AM – 1:00 PM", "2:00 PM – 4:00 PM"]

/-- One `AIRecommendation(...)` of the comprehension on lines 78-87. -/
def mkRec (env : Env) (i : ℕ) (t : Task) : AIRecommendation :=
  { taskId := t.id, taskTitle := t.title, rank := i + 1,
    reason := reasonFor env i t, suggestedTime := suggestedTimes.getD i "" }

/-- The comprehension `for i, t in enumerate(sorted_tasks[:3])`, with `i`
starting at the given index. -/
def mkRecs (env : Env) : ℕ → List Task → List AIRecommendation
  | _, [] => []
  | i, t :: rest => mkRec env i t :: mkRecs env (i + 1) rest

/-- `rule_based_priorities` (lines 67-99 of `ai.py`). -/
def rule_based_priorities (env : Env) (ts : List Task) : AIPriorityResponse :=
  { recommendations := mkRecs env 0 ((rankedTasks env ts).take 3),
    insight := "You have " ++ Nat.repr (activeTasks ts).length ++ " active tasks with "
      ++ Nat.repr ((activeTasks ts).countP (fun t => t.priority == "critical"))
      ++ " marked critical. Estimated " ++ fmt1 (((activeTasks ts).map dur).sum)
      ++ "h of focused work. I recommend addressing the top 3 priorities before 4 PM today." }

structure AITimeBlock where
  startTime : String
  endTime : String
  task : String
  taskId : String
  label : String
  emoji : String
  tip : String
deriving DecidableEq

/-- `block_templates` (lines 108-113 of `ai.py`): label, emoji, tip. -/
def blockTemplates : List (String × String × String) :=
  [("Deep Work Block", "🧠", "Silence all notifications. Use 90-min focus sprints with 10-min breaks."),
   ("Collaborative Focus", "🤝", "Schedule any needed syncs at the start. Batch async updates after."),
   ("Creative Session", "✨", "Start with a 5-min freewrite. Suspend self-editing until a complete draft exists."),
   ("Review & Polish", "🔍", "Work through a checklist. Document progress for tomorrow\x27s handoff.")]

/-- `0.5 if i == 1 else 0`: the lunch gap added after the second item. -/
def lunchGap (i : ℕ) : ℚ := if i = 1 then 1/2 else 0

/-- One `AITimeBlock(...)` of the loop body, at clock `cur` and index `i`. -/
def mkBlock (cur : ℚ) (i : ℕ) (t : Task) : AITimeBlock :=
  { startTime := fmtClock cur, endTime := fmtClock (cur + dur t),
    task := t.title, taskId := t.id,
    label := (blockTemplates.getD (i % 4) ("", "", "")).1,
    emoji := (blockTemplates.getD (i % 4) ("", "", "")).2.1,
    tip := (blockTemplates.getD (i % 4) ("", "", "")).2.2 }

/-- The `for i, task in enumerate(active[:4])` loop of lines 118-134:
after each block the running clock advances by `math.ceil(dur)` plus the
lunch gap. -/
def buildBlocks : ℚ → ℕ → List Task → List AITimeBlock
  | _, _, [] => []
  | cur, i, t :: rest =>
    mkBlock cur i t :: buildBlocks (cur + (⌈dur t⌉ : ℚ) + lunchGap i) (i + 1) rest

/-- `active[:4]` with `active` already sorted by urgency descending. -/
def plannedTasks (env : Env) (ts : List Task) : List Task :=
  (rankedTasks env ts).take 4

/-- The fixed `productivityTips` list of lines 141-148 of `ai.py`. -/
def productivityTipsList : List String :=
  ["🌅 Your peak cognitive performance occurs 9–11 AM. Front-load your most demanding task.",
   "⏰ Apply the 2-minute rule: tasks under 2 minutes get done immediately, not scheduled.",
   "🎯 Limit daily MIT (Most Important Tasks) to exactly 3 for maximum execution clarity.",
   "🔋 Insert a 15-min walk at 3 PM to counteract the post-lunch circadian energy dip.",
   "📵 Batch communications (Slack, email) to 3 fixed windows: 10 AM, 1 PM, and 4 PM.",
   "📝 End each day with a 5-min \x27shutdown ritual\x27: clear tomorrow\x27s top 3 tasks the night before."]

structure AIDailyPlanResponse where
  timeBlocks : List AITimeBlock
  totalFocusHours : ℚ
  productivityTips : List String
deriving DecidableEq

/-- `rule_based_daily_plan` (lines 102-149 of `ai.py`). -/
def rule_based_daily_plan (env : Env) (ts : List Task) : AIDailyPlanResponse :=
  { timeBlocks := buildBlocks 9 0 (plannedTasks env ts),
    totalFocusHours := round1 (((plannedTasks env ts).map dur).sum),
    productivityTips := productivityTipsList }

structure AISuggestResponse where
  priority : String
  estimatedHours : ℚ
  tip : String
  confidence : ℚ
deriving DecidableEq

structure SuggestRule where
  keywords : List String
  priority : String
  hours : ℚ
  tip : String
  confidence : ℚ
deriving DecidableEq

/-- The `rules` table of `rule_based_suggest` (lines 155-164 of `ai.py`),
in declaration order. -/
def suggestRules : List SuggestRule :=
  [{ keywords := ["finance", "budget", "invoice", "payroll", "audit"], priority := "critical",
     hours := 4.0, tip := "Gather all data sources before starting. Book 2h uninterrupted blocks.",
     confidence := 0.92 },
   { keywords := ["security", "vulnerability", "breach", "incident"], priority := "critical",
     hours := 3.0, tip := "Escalate immediately. Loop in stakeholders before diving into solutions.",
     confidence := 0.95 },
   { keywords := ["engineer", "architecture", "code", "system", "deploy", "infra"], priority := "high",
     hours := 3.0, tip := "Break into vertical slices. Time-box at 90-min intervals.",
     confidence := 0.88 },
   { keywords := ["deadline", "urgent", "asap", "critical", "launch"], priority := "high",
     hours := 2.5, tip := "Clarify scope before starting. Identify blockers in the first 15 minutes.",
     confidence := 0.90 },
   { keywords := ["market", "campaign", "content", "brand", "seo"], priority := "medium",
     hours := 2.5, tip := "Review competitor analysis first. Batch similar tasks for flow state.",
     confidence := 0.85 },
   { keywords := ["meeting", "sync", "review", "interview", "1:1"], priority := "medium",
     hours := 1.5, tip := "Prepare a clear agenda. Time-box strictly with a timer.",
     confidence := 0.80 },
   { keywords := ["document", "readme", "wiki", "report", "analysis"], priority := "medium",
     hours := 2.0, tip := "Start with an outline before writing. Use headers to structure thinking.",
     confidence := 0.82 },
   { keywords := ["research", "explore", "investigate", "spike"], priority := "low",
     hours := 3.0, tip := "Time-box research to avoid rabbit holes. Set a clear output goal.",
     confidence := 0.78 }]

/-- The no-match fallback of `rule_based_suggest` (lines 170-175). -/
def defaultSuggestResponse : AISuggestResponse :=
  { priority := "medium", estimatedHours := 2.0,
    tip := "Define a clear \x27done\x27 criteria before starting. Schedule a checkpoint at the halfway mark.",
    confidence := 0.70 }

/-- `rule_based_suggest` (lines 152-175 of `ai.py`): lowercase the joined
text, take the first rule with any keyword occurring as a substring. -/
def rule_based_suggest (title description : String) : AISuggestResponse :=
  match suggestRules.find?
      (fun r => r.keywords.any (fun kw => hasSubstr (lowerChars (title ++ " " ++ description)) kw.data)) with
  | some r => { priority := r.priority, estimatedHours := r.hours, tip := r.tip,
                confidence := r.confidence }
  | none => defaultSuggestResponse

/-- `openai_priorities` (lines 180-213 of `ai.py`).  `backendResult` is the
outcome of the whole `try` block: `some r` when the remote call, JSON
decode and schema validation all succeed with response `r`, `none` when
any of them raises; an absent or empty credential skips the call. -/
def openai_priorities (env : Env) (apiKey : Option String)
    (backendResult : Option AIPriorityResponse) (ts : List Task) : AIPriorityResponse :=
  if pyTruthy apiKey then
    match backendResult with
    | some r => r
    | none => rule_based_priorities env ts
  else rule_based_priorities env ts

/-- The `/priorities` handler `analyze_priorities` (lines 218-230):
`HTTPException(400)` on an empty task list, embedded as `Except.error`. -/
def analyze_priorities (env : Env) (apiKey : Option String)
    (backendResult : Option AIPriorityResponse) (ts : List Task) :
    Except ℕ AIPriorityResponse :=
  if ts.isEmpty then .error 400
  else if pyTruthy apiKey then .ok (openai_priorities env apiKey backendResult ts)
  else .ok (rule_based_priorities env ts)

/-- The `/daily-plan` handler `generate_daily_plan` (lines 233-241). -/
def generate_daily_plan (env : Env) (ts : List Task) : Except ℕ AIDailyPlanResponse :=
  if ts.isEmpty then .error 400
  else .ok (rule_based_daily_plan env ts)

/-- The `/suggest` handler `suggest_task_config` (lines 244-252):
rejects a title that is empty after stripping, else passes
`request.description or ""` to the classifier. -/
def suggest_task_config (title : String) (description : Option String) :
    Except ℕ AISuggestResponse :=
  if (pyStrip title.data).isEmpty then .error 400
  else .ok (rule_based_suggest title (description.getD ""))

/-! ### Helper lemmas about the numeric embedding -/

theorem pyInt_natCast (n : ℕ) : pyInt (n : ℚ) = n := by
  unfold pyInt
  rw [if_neg (not_lt.mpr (by positivity)), Int.floor_natCast]

theorem pyInt_nonneg_eq {q : ℚ} {n : ℤ} (hn : 0 ≤ n) (h1 : (n : ℚ) ≤ q) (h2 : q < (n : ℚ) + 1) :
    pyInt q = n := by
  have hq : (0 : ℚ) ≤ q := le_trans (by exact_mod_cast hn) h1
  unfold pyInt
  rw [if_neg (not_lt.mpr hq)]
  exact Int.floor_eq_iff.mpr ⟨h1, by exact_mod_cast h2⟩

theorem pyInt_nonpos_eq {q : ℚ} {n : ℤ} (hn : n ≤ 0) (h1 : (n : ℚ) - 1 < q) (h2 : q ≤ (n : ℚ)) :
    pyInt q = n := by
  unfold pyInt
  by_cases hq : q < 0
  · rw [if_pos hq]
    exact Int.ceil_eq_iff.mpr ⟨by exact_mod_cast h1, h2⟩
  · rw [if_neg hq]
    have hq0 : q = 0 := le_antisymm (le_trans h2 (by exact_mod_cast hn)) (not_lt.mp hq)
    have hn0 : n = 0 := by
      have h3 : (0 : ℚ) ≤ (n : ℚ) := hq0 ▸ h2
      have h4 : (0 : ℤ) ≤ n := by exact_mod_cast h3
      omega
    rw [hq0, hn0]
    simp

theorem fracPart_natCast (n : ℕ) : fracPart (n : ℚ) = 0 := by
  unfold fracPart
  rw [Int.floor_natCast]
  push_cast
  ring

theorem fracPart_nonneg (q : ℚ) : 0 ≤ fracPart q := by
  unfold fracPart
  have := Int.floor_le q
  linarith

theorem clockMinuteOf_natCast (n : ℕ) : clockMinuteOf (n : ℚ) = 0 := by
  unfold clockMinuteOf
  rw [fracPart_natCast]
  norm_num [pyInt]

theorem fmtClock_eq_of_natCast {q : ℚ} {n : ℕ} (h : q = (n : ℚ)) :
    fmtClock q = (n : ℤ).repr ++ ":" ++ "00" := by
  subst h
  unfold fmtClock clockHourOf
  rw [pyInt_natCast, clockMinuteOf_natCast]
  rfl

theorem fmtClock_eq_of_floor {q : ℚ} {h : ℤ} {m : ℕ} (hq : 0 ≤ q) (hh : ⌊q⌋ = h)
    (hm : ⌊(q - (h : ℚ)) * 60⌋ = (m : ℤ)) : fmtClock q = h.repr ++ ":" ++ pad2 m := by
  unfold fmtClock clockHourOf clockMinuteOf
  have h1 : pyInt q = h := by unfold pyInt; rw [if_neg (not_lt.mpr hq)]; exact hh
  have h2 : pyInt (fracPart q * 60) = (m : ℤ) := by
    unfold pyInt
    rw [if_neg (not_lt.mpr (mul_nonneg (fracPart_nonneg q) (by norm_num)))]
    unfold fracPart
    rw [hh]
    exact hm
  rw [h1, h2]
  simp

/-! ### Helper lemmas about ranking -/

theorem rankedTasks_perm (env : Env) (ts : List Task) :
    List.Perm (rankedTasks env ts) (activeTasks ts) :=
  List.perm_insertionSort (urgGE env) (activeTasks ts)

theorem rankedTasks_pairwise (env : Env) (ts : List Task) :
    (rankedTasks env ts).Pairwise (urgGE env) :=
  List.sorted_insertionSort (urgGE env) (activeTasks ts)

theorem rankedTasks_length (env : Env) (ts : List Task) :
    (rankedTasks env ts).length = (activeTasks ts).length :=
  List.length_insertionSort (urgGE env) (activeTasks ts)

theorem rankedTasks_filter_score (env : Env) (ts : List Task) (q : ℚ) :
    (rankedTasks env ts).filter (fun t => decide (urgency_score env t = q))
      = (activeTasks ts).filter (fun t => decide (urgency_score env t = q)) := by
  have hpair : ((activeTasks ts).filter (fun t => decide (urgency_score env t = q))).Pairwise
      (urgGE env) := by
    apply List.pairwise_of_forall_mem_list
    intro a ha b hb
    have ha' : urgency_score env a = q := of_decide_eq_true (List.mem_filter.mp ha).2
    have hb' : urgency_score env b = q := of_decide_eq_true (List.mem_filter.mp hb).2
    unfold urgGE
    rw [ha', hb']
  have hsub : List.Sublist ((activeTasks ts).filter (fun t => decide (urgency_score env t = q)))
      (rankedTasks env ts) :=
    List.sublist_insertionSort hpair (List.filter_sublist _)
  have hidem : ((activeTasks ts).filter (fun t => decide (urgency_score env t = q))).filter
        (fun t => decide (urgency_score env t = q))
      = (activeTasks ts).filter (fun t => decide (urgency_score env t = q)) := by
    rw [List.filter_filter]
    simp only [Bool.and_self]
  have hsub2 : List.Sublist
      ((activeTasks ts).filter (fun t => decide (urgency_score env t = q)))
      ((rankedTasks env ts).filter (fun t => decide (urgency_score env t = q))) := by
    have h := hsub.filter (fun t => decide (urgency_score env t = q))
    rwa [hidem] at h
  have hperm : List.Perm
      ((rankedTasks env ts).filter (fun t => decide (urgency_score env t = q)))
      ((activeTasks ts).filter (fun t => decide (urgency_score env t = q))) :=
    (rankedTasks_perm env ts).filter _
  exact (hsub2.eq_of_length hperm.length_eq.symm).symm

theorem mem_plannedTasks_mem (env : Env) (ts : List Task) {t : Task}
    (h : t ∈ plannedTasks env ts) : t ∈ ts := by
  have h1 : t ∈ rankedTasks env ts := List.take_subset 4 _ h
  have h2 : t ∈ activeTasks ts := (rankedTasks_perm env ts).mem_iff.mp h1
  exact List.mem_of_mem_filter h2

/-! ### Helper lemmas about the recommendation and block builders -/

theorem mkRecs_length (env : Env) : ∀ (i : ℕ) (l : List Task),
    (mkRecs env i l).length = l.length
  | _, [] => rfl
  | i, _ :: rest => by
    simp only [mkRecs, List.length_cons, mkRecs_length env (i + 1) rest]

theorem mkRecs_getElem? (env : Env) : ∀ (i j : ℕ) (l : List Task),
    (mkRecs env i l)[j]? = l[j]?.map (mkRec env (i + j))
  | _, _, [] => by simp [mkRecs]
  | i, 0, t :: _ => by simp [mkRecs]
  | i, j + 1, t :: rest => by
    simp only [mkRecs, List.getElem?_cons_succ]
    rw [mkRecs_getElem? env (i + 1) j rest, show i + 1 + j = i + (j + 1) from by omega]

theorem mkRecs_map_taskId (env : Env) : ∀ (i : ℕ) (l : List Task),
    (mkRecs env i l).map (fun r => r.taskId) = l.map (fun t => t.id)
  | _, [] => rfl
  | i, t :: rest => by
    simp only [mkRecs, List.map_cons, mkRecs_map_taskId env (i + 1) rest]
    rfl

theorem buildBlocks_length : ∀ (cur : ℚ) (i : ℕ) (l : List Task),
    (buildBlocks cur i l).length = l.length
  | _, _, [] => rfl
  | cur, i, t :: rest => by
    simp only [buildBlocks, List.length_cons, buildBlocks_length _ (i + 1) rest]

theorem buildBlocks_map_taskId : ∀ (cur : ℚ) (i : ℕ) (l : List Task),
    (buildBlocks cur i l).map (fun b => b.taskId) = l.map (fun t => t.id)
  | _, _, [] => rfl
  | cur, i, t :: rest => by
    simp only [buildBlocks, List.map_cons, buildBlocks_map_taskId _ (i + 1) rest]
    rfl

theorem buildBlocks_mem : ∀ (cur : ℚ) (i : ℕ) (l : List Task) (b : AITimeBlock),
    b ∈ buildBlocks cur i l → ∃ c k t, b = mkBlock c k t
  | _, _, [], b, h => by simp [buildBlocks] at h
  | cur, i, t :: rest, b, h => by
    simp only [buildBlocks, List.mem_cons] at h
    rcases h with h | h
    · exact ⟨cur, i, t, h⟩
    · exact buildBlocks_mem _ (i + 1) rest b h

/-- The running clock of the daily-plan loop: the clock reading just before
the block at offset `j` is laid out, starting from clock `cur` at loop
index `i`, where `durs` lists the (default-filled) durations.  Each step
advances by the ceiling of the duration plus the lunch gap. -/
def clockFrom (cur : ℚ) (i : ℕ) (durs : List ℚ) : ℕ → ℚ
  | 0 => cur
  | j + 1 => clockFrom cur i durs j + (⌈durs.getD j 0⌉ : ℚ) + lunchGap (i + j)

/-- The absolute running clock of the claim: start at 09:00, advance by
`ceil(duration)` per item plus a half-hour lunch gap after index 1. -/
def clockAt (durs : List ℚ) (j : ℕ) : ℚ := clockFrom 9 0 durs j

theorem clockFrom_cons (cur : ℚ) (i : ℕ) (d : ℚ) (ds : List ℚ) : ∀ (j : ℕ),
    clockFrom cur i (d :: ds) (j + 1) = clockFrom (cur + (⌈d⌉ : ℚ) + lunchGap i) (i + 1) ds j
  | 0 => by simp [clockFrom]
  | j + 1 => by
    show clockFrom cur i (d :: ds) (j + 1) + _ + _ = _
    rw [clockFrom_cons cur i d ds j]
    show _ = clockFrom (cur + (⌈d⌉ : ℚ) + lunchGap i) (i + 1) ds j + _ + _
    rw [show (d :: ds).getD (j + 1) 0 = ds.getD j 0 from rfl,
        show i + (j + 1) = i + 1 + j from by omega]

theorem buildBlocks_getElem? : ∀ (l : List Task) (cur : ℚ) (i j : ℕ),
    (buildBlocks cur i l)[j]? = l[j]?.map (fun t => mkBlock (clockFrom cur i (l.map dur) j) (i + j) t)
  | [], _, _, _ => by simp [buildBlocks]
  | t :: rest, cur, i, 0 => by simp [buildBlocks, clockFrom]
  | t :: rest, cur, i, j + 1 => by
    simp only [buildBlocks, List.getElem?_cons_succ, List.map_cons]
    rw [buildBlocks_getElem? rest _ (i + 1) j, clockFrom_cons cur i (dur t) (rest.map dur) j,
        show i + 1 + j = i + (j + 1) from by omega]

/-! ### Concrete inputs used by witnesses and counterexamples -/

/-- A clock/parser environment whose parser accepts exactly `"iso"`,
mapping it to one hour after the epoch-zero current instant. -/
def c1Env : Env := ⟨0, fun s => if s = "iso" then some 3600 else none, fun _ => ""⟩

def c1Task : Task := { id := "t1", title := "T1", deadline := some "iso", priority := "critical" }

/-- An environment whose parser rejects every string. -/
def c3Env : Env := ⟨0, fun _ => none, fun _ => ""⟩

def c3Task : Task := { id := "t3", title := "T3" }

def emptyRec : AIRecommendation := ⟨"", "", 0, "", ""⟩

/-! ### C1 -/

/-- C1: the urgency score is the priority base score (critical=100,
high=75, medium=50, low=25, any other priority 0) plus, when the stored
deadline parses, the bonus determined by diffHours = (deadline - now)/3600
(200 if past, 150 below 24, 100 below 72, 50 below 168, 10 otherwise);
an absent or unparseable deadline yields the base score alone, and the
scorer is a total function, so no error is raised. -/
theorem c1_urgency_score_spec (env : Env) (t : Task) (hwf : WFEnv env) :
    (PRIORITY_SCORE "critical" = 100 ∧ PRIORITY_SCORE "high" = 75
      ∧ PRIORITY_SCORE "medium" = 50 ∧ PRIORITY_SCORE "low" = 25
      ∧ ∀ p : String, p ≠ "critical" → p ≠ "high" → p ≠ "medium" → p ≠ "low" →
          PRIORITY_SCORE p = 0)
    ∧ (t.deadline = none → urgency_score env t = PRIORITY_SCORE t.priority)
    ∧ (∀ s, t.deadline = some s → env.parse s = none →
        urgency_score env t = PRIORITY_SCORE t.priority)
    ∧ (∀ s d, t.deadline = some s → env.parse s = some d →
        urgency_score env t = PRIORITY_SCORE t.priority + timeBonus ((d - env.now) / 3600))
    ∧ (∀ h : ℚ, (h < 0 → timeBonus h = 200) ∧ (0 ≤ h → h < 24 → timeBonus h = 150)
        ∧ (24 ≤ h → h < 72 → timeBonus h = 100) ∧ (72 ≤ h → h < 168 → timeBonus h = 50)
        ∧ (168 ≤ h → timeBonus h = 10)) := by
  refine ⟨⟨rfl, rfl, rfl, rfl, ?_⟩, ?_, ?_, ?_, ?_⟩
  · intro p h1 h2 h3 h4
    unfold PRIORITY_SCORE
    rw [if_neg h1, if_neg h2, if_neg h3, if_neg h4]
  · intro h
    unfold urgency_score
    rw [h]
  · intro s hs hp
    unfold urgency_score
    rw [hs]
    by_cases h0 : s = ""
    · simp [h0]
    · simp [h0, hp]
  · intro s d hs hp
    have h0 : s ≠ "" := by
      intro he
      rw [he] at hp
      rw [show env.parse "" = none from hwf] at hp
      cases hp
    unfold urgency_score
    rw [hs]
    simp [h0, hp]
  · intro h
    refine ⟨fun h1 => ?_, fun h1 h2 => ?_, fun h1 h2 => ?_, fun h1 h2 => ?_, fun h1 => ?_⟩
    · unfold timeBonus
      rw [if_pos h1]
    · unfold timeBonus
      rw [if_neg (by linarith), if_pos h2]
    · unfold timeBonus
      rw [if_neg (by linarith), if_neg (by linarith), if_pos h2]
    · unfold timeBonus
      rw [if_neg (by linarith), if_neg (by linarith), if_neg (by linarith), if_pos h2]
    · unfold timeBonus
      rw [if_neg (by linarith), if_neg (by linarith), if_neg (by linarith),
          if_neg (by linarith)]

/-- Witness for C1: a critical task whose deadline parses to one hour away
scores 100 + 150 = 250. -/
theorem c1_urgency_score_spec_witness : urgency_score c1Env c1Task = 250 := by
  have h := c1_urgency_score_spec c1Env c1Task rfl
  rw [h.2.2.2.1 "iso" 3600 rfl rfl]
  have hb : ((3600 : ℚ) - c1Env.now) / 3600 = 1 := by norm_num [c1Env]
  rw [show c1Task.priority = "critical" from rfl, hb,
      (h.2.2.2.2 1).2.1 (by norm_num) (by norm_num)]
  norm_num [PRIORITY_SCORE]

/-! ### C2 -/

/-- C2: ranking considers exactly the active items (the ranked list is a
permutation of them), orders them by urgency score descending, and is
stable: restricting the ranked list to any one score class gives exactly
the input's active sublist of that class, so two equal-score active items
keep their relative input order; the recommendations are read off the
ranked list in order. -/
theorem c2_ranking_stable (env : Env) (ts : List Task) :
    List.Perm (rankedTasks env ts) (activeTasks ts)
    ∧ (rankedTasks env ts).Pairwise
        (fun a b => urgency_score env b ≤ urgency_score env a)
    ∧ (∀ q : ℚ, (rankedTasks env ts).filter (fun t => decide (urgency_score env t = q))
        = (activeTasks ts).filter (fun t => decide (urgency_score env t = q)))
    ∧ (rule_based_priorities env ts).recommendations.map (fun r => r.taskId)
        = ((rankedTasks env ts).take 3).map (fun t => t.id) :=
  ⟨rankedTasks_perm env ts, rankedTasks_pairwise env ts,
   fun q => rankedTasks_filter_score env ts q,
   mkRecs_map_taskId env 0 _⟩

/-! ### C3 -/

/-- C3 counterexample: the claim's fixed 3-slot table writes the first
span as "9:00 AM–11:00 AM" (no spaces around the dash), but the code's
table on line 76 of `ai.py` reads "9:00 AM – 11:00 AM", so the single
recommendation produced for one active task carries a suggestedTime that
differs from the claim's first table entry. -/
theorem c3_counterexample :
    (rule_based_priorities c3Env [c3Task]).recommendations.map (fun r => r.suggestedTime)
        = ["9:00 AM – 11:00 AM"]
    ∧ ("9:00 AM – 11:00 AM" : String) ≠ "9:00 AM–11:00 AM" := by
  constructor
  · decide
  · decide

/-- C3 (amended): one recommendation per ranked active item up to 3, with
rank i+1 at 0-indexed position i, the reason built from the fixed template
for position i, and suggestedTime the i-th entry of the fixed table
["9:00 AM – 11:00 AM", "11:30 AM – 1:00 PM", "2:00 PM – 4:00 PM"] (the
source's spelling, with spaces around the dashes); fewer than 3 active
items yield correspondingly fewer recommendations and never an error. -/
theorem c3_recommendation_slots (env : Env) (ts : List Task) :
    suggestedTimes = ["9:00 AM – 11:00 AM", "11:30 AM – 1:00 PM", "2:00 PM – 4:00 PM"]
    ∧ (rule_based_priorities env ts).recommendations.length = min 3 (activeTasks ts).length
    ∧ (∀ i r, (rule_based_priorities env ts).recommendations[i]? = some r →
        r.rank = i + 1 ∧ r.suggestedTime = suggestedTimes.getD i ""
        ∧ ∃ t, (rankedTasks env ts)[i]? = some t ∧ r.taskId = t.id ∧ r.taskTitle = t.title
            ∧ r.reason = reasonFor env i t) := by
  refine ⟨rfl, ?_, ?_⟩
  · show (mkRecs env 0 ((rankedTasks env ts).take 3)).length = _
    rw [mkRecs_length, List.length_take, rankedTasks_length]
  · intro i r hr
    rw [show (rule_based_priorities env ts).recommendations
          = mkRecs env 0 ((rankedTasks env ts).take 3) from rfl,
        mkRecs_getElem?] at hr
    rcases Option.map_eq_some'.mp hr with ⟨t, ht, hrt⟩
    have hi : i < 3 := by
      obtain ⟨h1, -⟩ := List.getElem?_eq_some_iff.mp ht
      rw [List.length_take] at h1
      omega
    rw [List.getElem?_take_of_lt hi] at ht
    refine ⟨?_, ?_, t, ht, ?_, ?_, ?_⟩ <;> rw [← hrt] <;> simp [mkRec]

/-- Witness for C3 (amended): the single recommendation for one active
task has rank 1 and the first fixed suggested-time slot. -/
theorem c3_recommendation_slots_witness :
    ((rule_based_priorities c3Env [c3Task]).recommendations.getD 0 emptyRec).rank = 1
    ∧ ((rule_based_priorities c3Env [c3Task]).recommendations.getD 0 emptyRec).suggestedTime
        = "9:00 AM – 11:00 AM" := by
  have h := (c3_recommendation_slots c3Env [c3Task]).2.2 0
      ((rule_based_priorities c3Env [c3Task]).recommendations.getD 0 emptyRec) (by decide)
  exact ⟨h.1, by rw [h.2.1]; rfl⟩

/-! ### C4 -/

def c4TaskA : Task := { id := "a", title := "A", estimatedHours := some 2 }

def c4TaskB : Task := { id := "b", title := "B", estimatedHours := some 3 }

def emptyBlock : AITimeBlock := ⟨"", "", "", "", "", "", ""⟩

theorem round1_eq_of_int {q : ℚ} {n : ℤ} (h : q * 10 = (n : ℚ)) : round1 q = (n : ℚ) / 10 := by
  unfold round1 rndHalfEven
  rw [h, Int.floor_intCast, if_pos (by norm_num)]

/-- C4: the daily-plan builder lays the top 4 active items (by descending
urgency) out from a running clock starting at 9 in fractional hours: the
block at offset j starts at the running clock, ends at that clock plus the
item's default-filled duration, and the clock advances by ceil(duration)
plus a 0.5-hour lunch gap only after index 1 (this is `clockAt`); in
particular two active items with estimatedHours 2 and 3 give blocks
09:00-11:00 and 11:00-14:00. -/
theorem c4_daily_plan_layout (env : Env) (ts : List Task) :
    (rule_based_daily_plan env ts).timeBlocks.length = min 4 (activeTasks ts).length
    ∧ (∀ j b, (rule_based_daily_plan env ts).timeBlocks[j]? = some b →
        b.startTime = fmtClock (clockAt ((plannedTasks env ts).map dur) j)
        ∧ b.endTime = fmtClock (clockAt ((plannedTasks env ts).map dur) j
            + ((plannedTasks env ts).map dur).getD j 0)
        ∧ ∃ t, (plannedTasks env ts)[j]? = some t ∧ b.taskId = t.id ∧ b.task = t.title)
    ∧ (rule_based_daily_plan c3Env [c4TaskA, c4TaskB]).timeBlocks.map
        (fun b => (b.startTime, b.endTime)) = [("9:00", "11:00"), ("11:00", "14:00")] := by
  refine ⟨?_, ?_, ?_⟩
  · show (buildBlocks 9 0 (plannedTasks env ts)).length = _
    rw [buildBlocks_length]
    unfold plannedTasks
    rw [List.length_take, rankedTasks_length]
  · intro j b hb
    rw [show (rule_based_daily_plan env ts).timeBlocks
          = buildBlocks 9 0 (plannedTasks env ts) from rfl,
        buildBlocks_getElem?] at hb
    rcases Option.map_eq_some'.mp hb with ⟨t, ht, hbt⟩
    have hd : ((plannedTasks env ts).map dur).getD j 0 = dur t := by
      rw [List.getD_eq_getElem?_getD, List.getElem?_map, ht]
      rfl
    refine ⟨?_, ?_, t, ht, ?_, ?_⟩
    · rw [← hbt]
      rfl
    · rw [← hbt, hd]
      rfl
    · rw [← hbt]
      rfl
    · rw [← hbt]
      rfl
  · have hsort : rankedTasks c3Env [c4TaskA, c4TaskB] = [c4TaskA, c4TaskB] := by
      unfold rankedTasks activeTasks
      rw [show ([c4TaskA, c4TaskB].filter (fun t => t.status != "completed"))
            = [c4TaskA, c4TaskB] from rfl]
      simp only [List.insertionSort, List.orderedInsert]
      rw [if_pos]
      show urgency_score c3Env c4TaskB ≤ urgency_score c3Env c4TaskA
      norm_num [urgency_score, c4TaskA, c4TaskB, PRIORITY_SCORE]
    have hdA : dur c4TaskA = 2 := by norm_num [dur, c4TaskA]
    have hdB : dur c4TaskB = 3 := by norm_num [dur, c4TaskB]
    unfold rule_based_daily_plan plannedTasks
    rw [hsort]
    show (buildBlocks 9 0 [c4TaskA, c4TaskB]).map (fun b => (b.startTime, b.endTime)) = _
    simp only [buildBlocks, mkBlock, List.map, hdA, hdB]
    rw [fmtClock_eq_of_natCast (n := 9) (by norm_num),
        fmtClock_eq_of_natCast (n := 11) (by norm_num),
        fmtClock_eq_of_natCast (n := 11) (q := (9 : ℚ) + ↑⌈(2 : ℚ)⌉ + lunchGap 0)
          (by norm_num [lunchGap]),
        fmtClock_eq_of_natCast (n := 14) (by norm_num [lunchGap])]
    decide

/-- Witness for C4: the first block of a two-task plan starts at the
initial running clock, 9 fractional hours. -/
theorem c4_daily_plan_layout_witness :
    ∃ b, (rule_based_daily_plan c3Env [c4TaskA, c4TaskB]).timeBlocks[0]? = some b
      ∧ b.startTime = fmtClock (clockAt ((plannedTasks c3Env [c4TaskA, c4TaskB]).map dur) 0) := by
  have hlen : 0 < (rule_based_daily_plan c3Env [c4TaskA, c4TaskB]).timeBlocks.length := by
    rw [(c4_daily_plan_layout c3Env [c4TaskA, c4TaskB]).1]
    decide
  exact ⟨_, List.getElem?_eq_getElem hlen,
    ((c4_daily_plan_layout c3Env [c4TaskA, c4TaskB]).2.1 0 _
      (List.getElem?_eq_getElem hlen)).1⟩

/-! ### C5 -/

def c5Task : Task := { id := "f", title := "F", estimatedHours := some (3/2) }

/-- C5: totalFocusHours is the one-decimal rounding of the sum of the
default-filled estimatedHours of exactly the items appearing in the
returned timeBlocks (the top-4 selection), not of the ceil-rounded
durations used to advance the clock. -/
theorem c5_total_focus_hours (env : Env) (ts : List Task)
    (h : ∀ t ∈ ts, t.estimatedHours ≠ some 0) :
    (rule_based_daily_plan env ts).totalFocusHours
        = round1 (((plannedTasks env ts).map (fun t => t.estimatedHours.getD 2)).sum)
    ∧ (rule_based_daily_plan env ts).timeBlocks.map (fun b => b.taskId)
        = (plannedTasks env ts).map (fun t => t.id) := by
  constructor
  · show round1 (((plannedTasks env ts).map dur).sum) = _
    congr 2
    apply List.map_congr_left
    intro t htp
    have hne := h t (mem_plannedTasks_mem env ts htp)
    unfold dur
    cases hx : t.estimatedHours with
    | none => rfl
    | some v =>
      rw [hx] at hne
      have hv : v ≠ 0 := fun h0 => hne (by rw [h0])
      simp [hv]
  · exact buildBlocks_map_taskId 9 0 _

/-- Witness for C5: a single active item estimated at 1.5 hours yields
totalFocusHours 1.5, the raw estimate rather than its ceiling. -/
theorem c5_total_focus_hours_witness :
    (rule_based_daily_plan c3Env [c5Task]).totalFocusHours = 3/2 := by
  have h := (c5_total_focus_hours c3Env [c5Task] ?_).1
  · rw [h, show plannedTasks c3Env [c5Task] = [c5Task] from rfl]
    simp only [List.map, List.sum_cons, List.sum_nil]
    rw [show c5Task.estimatedHours.getD 2 = 3/2 from rfl]
    rw [round1_eq_of_int (n := 15) (by norm_num)]
    norm_num
  · intro t ht hx
    rcases List.mem_singleton.mp ht with rfl
    rw [show c5Task.estimatedHours = some (3/2 : ℚ) from rfl] at hx
    have hv := Option.some.inj hx
    norm_num at hv

/-! ### C6 -/

theorem pyInt_zero {q : ℚ} (h1 : -1 < q) (h2 : q < 1) : pyInt q = 0 := by
  unfold pyInt
  by_cases hq : q < 0
  · rw [if_pos hq]
    exact Int.ceil_eq_iff.mpr ⟨by push_cast; linarith, by push_cast; linarith⟩
  · rw [if_neg hq]
    exact Int.floor_eq_iff.mpr ⟨by push_cast; linarith [not_lt.mp hq], by push_cast; linarith⟩

/-- `format_deadline` on a deadline that parses, with the branch chain of
lines 54-60 of `ai.py` exposed. -/
theorem format_deadline_parsed (env : Env) (t : Task) {s : String} {d : ℚ}
    (hdl : t.deadline = some s) (hs : s ≠ "") (hp : env.parse s = some d) :
    format_deadline env t =
      (if pyInt ((d - env.now) / 3600) < 0 then
        "overdue by " ++ Nat.repr (((pyInt ((d - env.now) / 3600)).fdiv 24).natAbs) ++ "d"
      else if pyInt ((d - env.now) / 3600) < 24 then
        (pyInt ((d - env.now) / 3600)).repr ++ "h left"
      else if (pyInt ((d - env.now) / 3600)).fdiv 24 ≤ 7 then
        ((pyInt ((d - env.now) / 3600)).fdiv 24).repr ++ "d left"
      else env.fmtMonthDay d) := by
  unfold format_deadline
  rw [hdl]
  simp [hs, hp]

/-- An environment 25 whole hours past the instant its parser returns. -/
def c6EnvA : Env := ⟨90000, fun _ => some 0, fun _ => "Jan 01"⟩

/-- An environment 30 minutes past the instant its parser returns. -/
def c6EnvB : Env := ⟨1800, fun _ => some 0, fun _ => "Jan 01"⟩

def c6Task : Task := { id := "d", title := "D", deadline := some "2000-01-01T00:00:00" }

/-- C6 counterexample.  Left: 25 elapsed hours gives hours = -25 and the
code prints abs((-25) // 24) = 2 days, while the claim's formula
|hours| // 24 = 25 // 24 gives 1, so the claim predicts "overdue by 1d"
where the code prints "overdue by 2d".  Right: a deadline 30 minutes past
is "in the past", yet the truncated hour count is 0, so the code prints
"0h left" and not the "overdue by 0d" the claim requires. -/
theorem c6_counterexample :
    (format_deadline c6EnvA c6Task = "overdue by 2d"
      ∧ "overdue by 2d" ≠ "overdue by " ++ Nat.repr (25 / 24) ++ "d")
    ∧ (format_deadline c6EnvB c6Task = "0h left"
      ∧ "0h left" ≠ "overdue by " ++ Nat.repr (0 / 24) ++ "d") := by
  have hA : pyInt (((0 : ℚ) - c6EnvA.now) / 3600) = -25 := by
    rw [show ((0 : ℚ) - c6EnvA.now) / 3600 = ((-25 : ℤ) : ℚ) from by norm_num [c6EnvA]]
    unfold pyInt
    rw [if_pos (by push_cast; norm_num), Int.ceil_intCast]
  have hB : pyInt (((0 : ℚ) - c6EnvB.now) / 3600) = 0 := by
    apply pyInt_zero
    · norm_num [c6EnvB]
    · norm_num [c6EnvB]
  refine ⟨⟨?_, by decide⟩, ⟨?_, by decide⟩⟩
  · rw [format_deadline_parsed c6EnvA c6Task rfl (by decide) rfl, hA,
        if_pos (by decide : (-25 : ℤ) < 0)]
    decide
  · rw [format_deadline_parsed c6EnvB c6Task rfl (by decide) rfl, hB,
        if_neg (by decide : ¬((0 : ℤ) < 0)), if_pos (by decide : (0 : ℤ) < 24)]
    decide

/-- C6 (amended): with `hours` the elapsed/remaining time in whole hours
truncated toward zero, the formatter returns "no deadline" for an absent
(or empty-string) deadline, the raw stored string on parse failure, and
otherwise: "overdue by Nd" with N = ceil(H/24) = (H+23)/24 when at least
H >= 1 whole hours have elapsed (the code computes abs(hours // 24) with
floor division of the negative hours, not |hours| // 24); "0h left"
whenever less than one whole hour separates now from the deadline in
either direction — including deadlines up to an hour in the past; "Kh
left" for K in [1, 23] whole remaining hours; "Dd left" for D = K // 24 in
[1, 7] whole remaining days; and the absolute month-day label beyond 8
days. -/
theorem c6_format_deadline (env : Env) (t : Task) :
    (t.deadline = none → format_deadline env t = "no deadline")
    ∧ (t.deadline = some "" → format_deadline env t = "no deadline")
    ∧ (∀ s, t.deadline = some s → s ≠ "" → env.parse s = none → format_deadline env t = s)
    ∧ (∀ s d, t.deadline = some s → s ≠ "" → env.parse s = some d →
        (∀ H : ℤ, 1 ≤ H → 3600 * (H : ℚ) ≤ env.now - d → env.now - d < 3600 * ((H : ℚ) + 1) →
            format_deadline env t = "overdue by " ++ Nat.repr ((H.toNat + 23) / 24) ++ "d")
        ∧ (env.now - d < 3600 → d - env.now < 3600 → format_deadline env t = "0h left")
        ∧ (∀ K : ℤ, 1 ≤ K → K < 24 → 3600 * (K : ℚ) ≤ d - env.now →
            d - env.now < 3600 * ((K : ℚ) + 1) →
            format_deadline env t = K.repr ++ "h left")
        ∧ (∀ D : ℤ, 1 ≤ D → D ≤ 7 → 86400 * (D : ℚ) ≤ d - env.now →
            d - env.now < 86400 * ((D : ℚ) + 1) →
            format_deadline env t = D.repr ++ "d left")
        ∧ (86400 * 8 ≤ d - env.now → format_deadline env t = env.fmtMonthDay d)) := by
  refine ⟨?_, ?_, ?_, ?_⟩
  · intro h
    unfold format_deadline
    rw [h]
  · intro h
    unfold format_deadline
    rw [h]
    simp
  · intro s hdl hs hp
    unfold format_deadline
    rw [hdl]
    simp [hs, hp]
  · intro s d hdl hs hp
    refine ⟨?_, ?_, ?_, ?_, ?_⟩
    · intro H hH hlb hub
      have hpy : pyInt ((d - env.now) / 3600) = -H := by
        apply pyInt_nonpos_eq (by omega)
        · push_cast
          rw [lt_div_iff (by norm_num : (0 : ℚ) < 3600)]
          linarith
        · push_cast
          rw [div_le_iff (by norm_num : (0 : ℚ) < 3600)]
          linarith
      rw [format_deadline_parsed env t hdl hs hp, hpy, if_pos (by omega : -H < 0)]
      have hdiv : ((-H).fdiv 24).natAbs = (H.toNat + 23) / 24 := by
        rw [Int.fdiv_eq_ediv _ (by norm_num)]
        omega
      rw [hdiv]
    · intro hA hB
      have hpy : pyInt ((d - env.now) / 3600) = 0 := by
        apply pyInt_zero
        · rw [lt_div_iff (by norm_num : (0 : ℚ) < 3600)]
          linarith
        · rw [div_lt_iff (by norm_num : (0 : ℚ) < 3600)]
          linarith
      rw [format_deadline_parsed env t hdl hs hp, hpy,
          if_neg (by decide : ¬((0 : ℤ) < 0)), if_pos (by decide : (0 : ℤ) < 24)]
      rfl
    · intro K h1K h2K hlb hub
      have hpy : pyInt ((d - env.now) / 3600) = K := by
        apply pyInt_nonneg_eq (by omega)
        · rw [le_div_iff (by norm_num : (0 : ℚ) < 3600)]
          linarith
        · push_cast
          rw [div_lt_iff (by norm_num : (0 : ℚ) < 3600)]
          linarith
      rw [format_deadline_parsed env t hdl hs hp, hpy,
          if_neg (by omega : ¬(K < 0)), if_pos h2K]
    · intro D h1D h2D hlb hub
      have hq0 : (0 : ℚ) ≤ (d - env.now) / 3600 := by
        apply div_nonneg _ (by norm_num)
        have : (0 : ℚ) < 86400 * (D : ℚ) := by
          have : (1 : ℚ) ≤ (D : ℚ) := by exact_mod_cast h1D
          nlinarith
        linarith
      have hfl : pyInt ((d - env.now) / 3600) = ⌊(d - env.now) / 3600⌋ := by
        unfold pyInt
        rw [if_neg (not_lt.mpr hq0)]
      have hlow : 24 * D ≤ ⌊(d - env.now) / 3600⌋ := by
        apply Int.le_floor.mpr
        push_cast
        rw [le_div_iff (by norm_num : (0 : ℚ) < 3600)]
        linarith
      have hhigh : ⌊(d - env.now) / 3600⌋ < 24 * (D + 1) := by
        apply Int.floor_lt.mpr
        push_cast
        rw [div_lt_iff (by norm_num : (0 : ℚ) < 3600)]
        linarith
      have hdiv : (⌊(d - env.now) / 3600⌋).fdiv 24 = D := by
        rw [Int.fdiv_eq_ediv _ (by norm_num)]
        omega
      rw [format_deadline_parsed env t hdl hs hp, hfl,
          if_neg (by omega : ¬(⌊(d - env.now) / 3600⌋ < 0)),
          if_neg (by omega : ¬(⌊(d - env.now) / 3600⌋ < 24)), hdiv, if_pos h2D]
    · intro h8
      have hq0 : (0 : ℚ) ≤ (d - env.now) / 3600 := by
        apply div_nonneg _ (by norm_num)
        linarith
      have hfl : pyInt ((d - env.now) / 3600) = ⌊(d - env.now) / 3600⌋ := by
        unfold pyInt
        rw [if_neg (not_lt.mpr hq0)]
      have hlow : 192 ≤ ⌊(d - env.now) / 3600⌋ := by
        apply Int.le_floor.mpr
        push_cast
        rw [le_div_iff (by norm_num : (0 : ℚ) < 3600)]
        linarith
      have hnd : ¬((⌊(d - env.now) / 3600⌋).fdiv 24 ≤ 7) := by
        rw [Int.fdiv_eq_ediv _ (by norm_num)]
        omega
      rw [format_deadline_parsed env t hdl hs hp, hfl,
          if_neg (by omega : ¬(⌊(d - env.now) / 3600⌋ < 0)),
          if_neg (by omega : ¬(⌊(d - env.now) / 3600⌋ < 24)), if_neg hnd]

/-- Witness for C6 (amended): 25 whole elapsed hours format as
"overdue by 2d" (ceil(25/24) = 2). -/
theorem c6_format_deadline_witness : format_deadline c6EnvA c6Task = "overdue by 2d" := by
  have h := ((c6_format_deadline c6EnvA c6Task).2.2.2 "2000-01-01T00:00:00" 0 rfl
      (by decide) rfl).1 25 (by norm_num) (by norm_num [c6EnvA]) (by norm_num [c6EnvA])
  rw [h]
  decide

/-! ### C7 -/

/-- C7: the classifier lowercases title + " " + description and takes the
first of the 8 rules, in declaration order, with any keyword occurring as
a substring.  "budget" is a keyword of rule 1 (finance), so any text
containing both "security" and "budget" classifies as rule 1's
(critical, 4.0h) output, and text matching no rule yields the fixed
default (medium, 2.0h, confidence 0.70, generic tip). -/
theorem c7_suggest_rules (title description : String) :
    suggestRules.length = 8
    ∧ (hasSubstr (lowerChars (title ++ " " ++ description)) "security".data = true →
       hasSubstr (lowerChars (title ++ " " ++ description)) "budget".data = true →
       rule_based_suggest title description =
         { priority := "critical", estimatedHours := 4.0,
           tip := "Gather all data sources before starting. Book 2h uninterrupted blocks.",
           confidence := 0.92 })
    ∧ ((∀ r ∈ suggestRules, ∀ kw ∈ r.keywords,
          hasSubstr (lowerChars (title ++ " " ++ description)) kw.data = false) →
       rule_based_suggest title description = defaultSuggestResponse) := by
  refine ⟨rfl, ?_, ?_⟩
  · intro _ hb
    unfold rule_based_suggest suggestRules
    rw [List.find?_cons_of_pos _ ?_]
    show (["finance", "budget", "invoice", "payroll", "audit"] : List String).any
        (fun kw => hasSubstr (lowerChars (title ++ " " ++ description)) kw.data) = true
    simp only [List.any_cons, List.any_nil]
    rw [hb]
    simp
  · intro hnone
    unfold rule_based_suggest
    rw [List.find?_eq_none.mpr ?_]
    intro r hr hpred
    rcases List.any_eq_true.mp hpred with ⟨kw, hkw, hsub⟩
    rw [hnone r hr kw hkw] at hsub
    cases hsub

/-- Witness for C7: a title containing both "security" and "budget"
classifies by the finance rule; a keyword-free title falls through to the
default suggestion. -/
theorem c7_suggest_rules_witness :
    rule_based_suggest "Security budget review" "" =
      { priority := "critical", estimatedHours := 4.0,
        tip := "Gather all data sources before starting. Book 2h uninterrupted blocks.",
        confidence := 0.92 }
    ∧ rule_based_suggest "zzz" "" = defaultSuggestResponse := by
  constructor
  · exact (c7_suggest_rules "Security budget review" "").2.1 (by decide) (by decide)
  · exact (c7_suggest_rules "zzz" "").2.2 (by decide)

/-! ### C8 -/

/-- C8: every failure of the reasoning-backend path — credential absent,
credential empty, or the remote call / JSON decode / schema validation
raising (backendResult = none) — is not propagated: the adapter returns
exactly the deterministic ranker's result for the same input, and the
route handler then returns it as the successful response. -/
theorem c8_backend_fallback (env : Env) (apiKey : Option String)
    (backendResult : Option AIPriorityResponse) (ts : List Task)
    (hfail : apiKey = none ∨ apiKey = some "" ∨ backendResult = none) :
    openai_priorities env apiKey backendResult ts = rule_based_priorities env ts
    ∧ (ts ≠ [] → analyze_priorities env apiKey backendResult ts
        = .ok (rule_based_priorities env ts)) := by
  have hmain : openai_priorities env apiKey backendResult ts = rule_based_priorities env ts := by
    rcases hfail with h | h | h
    · subst h
      rfl
    · subst h
      rfl
    · subst h
      unfold openai_priorities
      split <;> rfl
  refine ⟨hmain, fun hne => ?_⟩
  unfold analyze_priorities
  rw [if_neg (by simpa using hne)]
  by_cases hk : pyTruthy apiKey
  · rw [if_pos hk, hmain]
  · rw [if_neg hk]

/-- Witness for C8: with no credential and a failed backend call, the
route returns the deterministic ranker's output for a one-task list. -/
theorem c8_backend_fallback_witness :
    openai_priorities c3Env none none [c3Task] = rule_based_priorities c3Env [c3Task]
    ∧ analyze_priorities c3Env none none [c3Task]
        = .ok (rule_based_priorities c3Env [c3Task]) := by
  have h := c8_backend_fallback c3Env none none [c3Task] (Or.inl rfl)
  exact ⟨h.1, h.2 (by decide)⟩

/-! ### C9 -/

/-- C9: an empty item set (rank-priorities and daily-plan routes) or a
title that is empty after stripping whitespace (classify route) is
rejected at the boundary with a 400 validation error; the handlers return
the error without invoking the core scoring, planning, or classification
functions. -/
theorem c9_boundary_validation (env : Env) (apiKey : Option String)
    (backendResult : Option AIPriorityResponse) (ts : List Task) (title : String)
    (description : Option String) (hts : ts = []) (htitle : pyStrip title.data = []) :
    analyze_priorities env apiKey backendResult ts = .error 400
    ∧ generate_daily_plan env ts = .error 400
    ∧ suggest_task_config title description = .error 400 := by
  subst hts
  refine ⟨rfl, rfl, ?_⟩
  unfold suggest_task_config
  rw [htitle]
  rfl

/-- Witness for C9: the empty list and an all-whitespace title are both
rejected with status 400. -/
theorem c9_boundary_validation_witness :
    analyze_priorities c3Env none none [] = .error 400
    ∧ generate_daily_plan c3Env [] = .error 400
    ∧ suggest_task_config "   " none = .error 400 :=
  c9_boundary_validation c3Env none none [] "   " none rfl (by decide)

/-! ### C10 -/

set_option maxRecDepth 10000 in
/-- C10: both endpoints of every time block are rendered by the clock
formatter, which prints the hour with no padding (no leading zero for any
positive hour, checked up to 200) and the minutes zero-padded to exactly
two characters; a running clock of 9.0 renders "9:00", not "09:00", and
9.5 renders "9:30". -/
theorem c10_clock_rendering (env : Env) (ts : List Task) :
    (∀ b ∈ (rule_based_daily_plan env ts).timeBlocks,
        (∃ q : ℚ, b.startTime = fmtClock q) ∧ (∃ q : ℚ, b.endTime = fmtClock q))
    ∧ fmtClock 9 = "9:00"
    ∧ fmtClock 9 ≠ "09:00"
    ∧ fmtClock (19/2) = "9:30"
    ∧ (∀ m : ℕ, m < 60 → (pad2 m).length = 2)
    ∧ (∀ h : ℕ, h < 200 → 0 < h → (Nat.repr h).data.head? ≠ some '0') := by
  refine ⟨?_, ?_, ?_, ?_, ?_, ?_⟩
  · intro b hb
    obtain ⟨c, k, t, rfl⟩ := buildBlocks_mem 9 0 _ b hb
    exact ⟨⟨c, rfl⟩, ⟨c + dur t, rfl⟩⟩
  · rw [fmtClock_eq_of_natCast (n := 9) (by norm_num)]
    decide
  · rw [fmtClock_eq_of_natCast (n := 9) (by norm_num)]
    decide
  · have hh : ⌊(19 / 2 : ℚ)⌋ = 9 := Int.floor_eq_iff.mpr (by norm_num)
    have hm : ⌊((19 / 2 : ℚ) - ((9 : ℤ) : ℚ)) * 60⌋ = ((30 : ℕ) : ℤ) := by
      rw [show ((19 / 2 : ℚ) - ((9 : ℤ) : ℚ)) * 60 = ((30 : ℤ) : ℚ) from by push_cast; norm_num,
          Int.floor_intCast]
      rfl
    rw [fmtClock_eq_of_floor (by norm_num) hh hm]
    decide
  · decide
  · decide

/-- Witness for C10: the first block of a concrete plan is rendered by the
clock formatter; pad2 keeps two-digit minutes at width 2; 10 has no
leading zero. -/
theorem c10_clock_rendering_witness :
    (∃ q : ℚ, ((rule_based_daily_plan c3Env [c4TaskA, c4TaskB]).timeBlocks.getD 0
        emptyBlock).startTime = fmtClock q)
    ∧ (pad2 30).length = 2
    ∧ (Nat.repr 10).data.head? ≠ some '0' := by
  have hlen : 0 < (rule_based_daily_plan c3Env [c4TaskA, c4TaskB]).timeBlocks.length := by
    show 0 < (buildBlocks 9 0 (plannedTasks c3Env [c4TaskA, c4TaskB])).length
    rw [buildBlocks_length,
        show plannedTasks c3Env [c4TaskA, c4TaskB]
          = (rankedTasks c3Env [c4TaskA, c4TaskB]).take 4 from rfl,
        List.length_take, rankedTasks_length]
    decide
  have hmem : (rule_based_daily_plan c3Env [c4TaskA, c4TaskB]).timeBlocks.getD 0 emptyBlock
      ∈ (rule_based_daily_plan c3Env [c4TaskA, c4TaskB]).timeBlocks := by
    rw [List.getD_eq_getElem?_getD, List.getElem?_eq_getElem hlen]
    exact List.getElem_mem hlen
  exact ⟨((c10_clock_rendering c3Env [c4TaskA, c4TaskB]).1 _ hmem).1,
    (c10_clock_rendering c3Env []).2.2.2.2.1 30 (by decide),
    (c10_clock_rendering c3Env []).2.2.2.2.2 10 (by decide) (by decide)⟩

end SmartProductivity
